import Mathlib

/-!
# Verification of the container lifecycle state machine and CPU resource controller

Shallow embedding of two source files of a modified runc:
* the container state machine (stoppedState / runningState / createdState /
  pausedState / restoredState / loadedState, the shared `destroy` routine), and
* the cgroup cpu controller (`CpuGroup.Apply`, `CpuGroup.Set`,
  `CpuGroup.SetRtSched`, `readCpuRtMultiRuntimeFile`,
  `writeToParentMultiRuntime`).

File-system reads and writes, the cgroup manager, the Intel RDT manager, the
freezer, hooks and the liveness check (`runType`) are collaborators: each is
represented by an environment value giving that call its outcome, and writes
performed by the code are collected in a trace.
-/

deriving instance DecidableEq for Except

/-! ## Statuses and container states -/

/-- Modelled from the spec: the observable container status
(the `Status` type and its `String` method are outside the two source files;
the spec gives the four values and says transition errors name the status
strings of both sides). -/
inductive Status
  | created
  | running
  | paused
  | stopped
deriving DecidableEq

/-- Modelled from the spec: `Status.String`. -/
def Status.str : Status → String
  | .created => "created"
  | .running => "running"
  | .paused => "paused"
  | .stopped => "stopped"

/-- The closed variant of container states.  `restored` carries no payload
(its image directory plays no role in `transition`); `loaded` wraps the status
it reports, as in the source. -/
inductive StateKind
  | stopped
  | running
  | created
  | paused
  | restored
  | loaded (s : Status)
deriving DecidableEq

/-- Each state's `status()` method: `restoredState.status` reports Running,
`loadedState.status` reports its wrapped status. -/
def StateKind.status : StateKind → Status
  | .stopped => .stopped
  | .running => .running
  | .created => .created
  | .paused => .paused
  | .restored => .running
  | .loaded s => s

/-- Errors surfaced by the lifecycle code and the cpu controller.
`stateTransition` is `stateTransitionError{From, To}`; `maxShares`/`minShares`
are the two `fmt.Errorf` messages of `CpuGroup.Set` citing the read-back
value; `einval` is an error for which `errors.Is(err, unix.EINVAL)` holds and
`other` any different collaborator error. -/
inductive GoErr
  | stateTransition (fromStr toStr : String)
  | errRunning
  | errPaused
  | maxShares (v : Nat)
  | minShares (v : Nat)
  | einval
  | other (code : Nat)
deriving DecidableEq

/-! ## The transition table (from the source) -/

/-- `transition` of the current state on a target state.  Each state's Go
method is one arm; `rt` is the result of `r.c.runType()`, consulted only by
`runningState.transition` on a stopped target.  The returned state is the
container's state field after the call (unchanged when the method does not
assign it). -/
def transition (cur : StateKind) (rt : Status) (t : StateKind) : Except GoErr StateKind :=
  match cur with
  | .stopped =>
    match t with
    | .running => .ok t
    | .restored => .ok t
    | .stopped => .ok cur
    | _ => .error (.stateTransition cur.status.str t.status.str)
  | .running =>
    match t with
    | .stopped => if rt = Status.running then .error .errRunning else .ok t
    | .paused => .ok t
    | .running => .ok cur
    | _ => .error (.stateTransition cur.status.str t.status.str)
  | .created =>
    match t with
    | .running => .ok t
    | .paused => .ok t
    | .stopped => .ok t
    | .created => .ok cur
    | _ => .error (.stateTransition cur.status.str t.status.str)
  | .paused =>
    match t with
    | .running => .ok t
    | .stopped => .ok t
    | .paused => .ok cur
    | _ => .error (.stateTransition cur.status.str t.status.str)
  | .restored =>
    match t with
    | .stopped => .ok cur
    | .running => .ok cur
    | _ => .error (.stateTransition cur.status.str t.status.str)
  | .loaded _ => .ok t

/-- Two states have the same kind (ignoring the `loaded` payload). -/
def sameKind : StateKind → StateKind → Bool
  | .stopped, .stopped => true
  | .running, .running => true
  | .created, .created => true
  | .paused, .paused => true
  | .restored, .restored => true
  | .loaded _, .loaded _ => true
  | _, _ => false

/-- The transition table as the spec states it: row = current kind, accepted
target kinds, with a same-kind target always accepted and Loaded accepting
anything.  This definition follows the spec's words, for comparison with
`transition` (which is from the source). -/
def specAccepted (cur t : StateKind) : Bool :=
  sameKind cur t ||
    match cur, t with
    | .stopped, .running => true
    | .stopped, .restored => true
    | .running, .stopped => true
    | .running, .paused => true
    | .created, .running => true
    | .created, .paused => true
    | .created, .stopped => true
    | .paused, .running => true
    | .paused, .stopped => true
    | .restored, .stopped => true
    | .restored, .running => true
    | .loaded _, _ => true
    | _, _ => false

/-- The outcome the claim (as stated) predicts for `transition`: unlisted
pairs give the invalid-transition error naming both status strings; listed
pairs swap the state to the target, except that Loaded always swaps, Restored
keeps its state, and a same-kind target is a no-op.  This definition follows
the claim's words, for comparison with `transition`. -/
def specExpected (cur t : StateKind) : Except GoErr StateKind :=
  if specAccepted cur t then
    .ok (match cur with
      | .loaded _ => t
      | .restored => cur
      | _ => if sameKind cur t then cur else t)
  else
    .error (.stateTransition cur.status.str t.status.str)

/-- The claim amended by what the source forces: a Running current state with
a live process refuses a Stopped target with `ErrRunning`, and a Restored
current state refuses a Restored target with the invalid-transition error
(naming running on both sides, since `restoredState.status` is Running). -/
def amendedExpected (cur : StateKind) (rt : Status) (t : StateKind) : Except GoErr StateKind :=
  match cur, t with
  | .restored, .restored =>
    .error (.stateTransition Status.running.str Status.running.str)
  | .running, .stopped =>
    if rt = Status.running then .error .errRunning else .ok .stopped
  | _, _ => specExpected cur t

/-! ## The global destroy routine -/

/-- The container fields the two source files consult.
`hasPrivatePidNs` is `c.config.Namespaces.Contains(configs.NEWPID)`,
`pidNsPath` is `c.config.Namespaces.PathOf(configs.NEWPID)`,
`hasIntelRdt` is `c.intelRdtManager != nil`,
`hasInitProcess` is `c.initProcess != nil`,
`state` is the current state variant. -/
structure Container where
  hasPrivatePidNs : Bool
  pidNsPath : String
  hasIntelRdt : Bool
  hasInitProcess : Bool
  state : StateKind
deriving DecidableEq

/-- Hard-coded debug-log path opened by the force-kill branch of `destroy`. -/
def debugDestroyLogPath : String := "/home/worker3/debugdestroy.log"

/-- Hard-coded debug-log path opened by `writeToParentMultiRuntime`. -/
def debugParentLogPath : String := "/home/worker3/debugparent.log"

/-- Outcomes of the collaborator calls `destroy` makes.  `destroyLogOpenFails`
is whether `os.OpenFile` on `debugDestroyLogPath` fails (the code then calls
`log.Fatal`); `signalErr` is `signalAllProcesses` (warned, never returned);
the remaining four are the cleanup steps whose first error is returned.
`poststopErr` is the overall result of `runPoststopHooks` (nil hooks give
none). -/
structure DestroyEnv where
  destroyLogOpenFails : Bool
  signalErr : Option GoErr
  cgroupDestroyErr : Option GoErr
  intelRdtDestroyErr : Option GoErr
  removeAllErr : Option GoErr
  poststopErr : Option GoErr
deriving DecidableEq

/-- The observable actions a destroy run performs. -/
inductive DStep
  | forceKill
  | thaw
  | cgroupDestroy
  | intelRdtDestroy
  | removeAll
  | poststopHooks
deriving DecidableEq

/-- How a destroy run ends: `log.Fatal` terminating the process, or a normal
return carrying the returned error and the container as left behind. -/
inductive DestroyOutcome
  | fatal
  | returned (err : Option GoErr) (c : Container)
deriving DecidableEq

/-- A destroy run: the steps performed, in order, and how it ended. -/
structure DestroyRun where
  steps : List DStep
  outcome : DestroyOutcome
deriving DecidableEq

/-- Go `if err == nil { err = b }` threading. -/
def firstErr (a b : Option GoErr) : Option GoErr :=
  match a with
  | none => b
  | some e => some e

/-- Condition of the force-kill branch of `destroy`:
`!c.config.Namespaces.Contains(configs.NEWPID) ||
c.config.Namespaces.PathOf(configs.NEWPID) != ""`. -/
def forceKillBranch (c : Container) : Bool :=
  (!c.hasPrivatePidNs) || (c.pidNsPath != "")

/-- The tail of `destroy` after the force-kill branch: cgroup destroy, Intel
RDT destroy when attached, recursive root removal, clearing the init-process
handle, poststop hooks, and setting the state to stopped; each step error is
kept only if no earlier error was recorded. -/
def destroyRest (c : Container) (env : DestroyEnv) (pre : List DStep) : DestroyRun :=
  let err1 := env.cgroupDestroyErr
  let rdtSteps : List DStep := if c.hasIntelRdt then [DStep.intelRdtDestroy] else []
  let err2 := if c.hasIntelRdt then firstErr err1 env.intelRdtDestroyErr else err1
  let err3 := firstErr err2 env.removeAllErr
  let err4 := firstErr err3 env.poststopErr
  { steps := pre ++ [DStep.cgroupDestroy] ++ rdtSteps ++ [DStep.removeAll, DStep.poststopHooks]
    outcome := .returned err4 { c with hasInitProcess := false, state := .stopped } }

/-- The global `destroy(c *linuxContainer)` routine.  In the force-kill
branch, the debug-log open failure is `log.Fatal` (process termination); the
ledger reads in that branch only feed the logger, and a `signalAllProcesses`
error is only warned. -/
def destroy (c : Container) (env : DestroyEnv) : DestroyRun :=
  if forceKillBranch c then
    if env.destroyLogOpenFails then { steps := [], outcome := .fatal }
    else destroyRest c env [DStep.forceKill]
  else destroyRest c env []

/-- `runningState.destroy`: refuse with `ErrRunning` while the liveness check
reports Running, otherwise run the global destroy. -/
def runningStateDestroy (c : Container) (rt : Status) (env : DestroyEnv) : DestroyRun :=
  if rt = Status.running then { steps := [], outcome := .returned (some .errRunning) c }
  else destroy c env

/-- `pausedState.destroy`: when the liveness check reports neither Running
nor Created, thaw the freezer (`freezeErr` is that call's outcome) and, only
on success, run the global destroy; otherwise refuse with `ErrPaused`. -/
def pausedStateDestroy (c : Container) (rt : Status) (freezeErr : Option GoErr)
    (env : DestroyEnv) : DestroyRun :=
  if rt ≠ Status.running ∧ rt ≠ Status.created then
    match freezeErr with
    | some e => { steps := [DStep.thaw], outcome := .returned (some e) c }
    | none =>
      let d := destroy c env
      { steps := DStep.thaw :: d.steps, outcome := d.outcome }
  else { steps := [], outcome := .returned (some .errPaused) c }

/-- First non-nil error of a list of step outcomes (the claim's phrasing). -/
def firstSome : List (Option GoErr) → Option GoErr
  | [] => none
  | none :: rest => firstSome rest
  | some e :: _ => some e

/-- The errors of the four cleanup steps of `destroy`, in execution order. -/
def destroyStepErrs (c : Container) (env : DestroyEnv) : List (Option GoErr) :=
  [env.cgroupDestroyErr]
    ++ (if c.hasIntelRdt then [env.intelRdtDestroyErr] else [])
    ++ [env.removeAllErr, env.poststopErr]

/-! ## CPU controller: string and number primitives

`strings.Split`, `strconv.ParseInt(_, 10, 32)`, `strconv.Atoi`,
`strconv.Itoa` and `strconv.FormatInt(_, 10)` modelled on character lists so
all computations reduce in the kernel. -/

/-- Go `strings.Split(s, sep)` for a one-character separator: every
separator occurrence splits, empty fields are kept, the result is never
empty. -/
def splitOnChar (sep : Char) : List Char → List (List Char)
  | [] => [[]]
  | c :: cs =>
    if c = sep then [] :: splitOnChar sep cs
    else
      match splitOnChar sep cs with
      | [] => [[c]]
      | t :: ts => (c :: t) :: ts

/-- Decimal digit run with accumulator. -/
def parseDigitsAux : List Char → Nat → Option Nat
  | [], acc => some acc
  | c :: cs, acc =>
    if '0' ≤ c ∧ c ≤ '9' then parseDigitsAux cs (acc * 10 + (c.toNat - 48))
    else none

/-- A non-empty run of decimal digits, as a number. -/
def parseDigits : List Char → Option Nat
  | [] => none
  | cs => parseDigitsAux cs 0

/-- Optional sign followed by digits (the base-10 syntax `strconv.ParseInt`
accepts). -/
def parseSigned : List Char → Option Int
  | '+' :: rest => (parseDigits rest).map fun n => (n : Int)
  | '-' :: rest => (parseDigits rest).map fun n => -(n : Int)
  | cs => (parseDigits cs).map fun n => (n : Int)

/-- Go `strconv.ParseInt(s, 10, 32)`: syntax or 32-bit range violations are
errors. -/
def goParseInt32 (cs : List Char) : Option Int :=
  match parseSigned cs with
  | none => none
  | some v => if -(2 ^ 31) ≤ v ∧ v < 2 ^ 31 then some v else none

/-- Go `cpuIND, _ := strconv.Atoi(cpu)`: the error is discarded, so a syntax
error yields 0 and a 64-bit range error yields the clamped bound. -/
def goAtoiOrZero (cs : List Char) : Int :=
  match parseSigned cs with
  | none => 0
  | some v =>
    if v > 2 ^ 63 - 1 then 2 ^ 63 - 1
    else if v < -(2 ^ 63) then -(2 ^ 63) else v

/-! ## CPU controller: the real-time runtime ledger -/

/-- Reasons the cpu controller panics. -/
inductive PanicReason
  | sliceBounds
  | indexOutOfRange
  | parseRuntime (tok : String)
deriving DecidableEq

/-- Result of `readCpuRtMultiRuntimeFile`: the parsed per-core runtimes, a
read error (whose value the caller discards), or a panic. -/
inductive ReadOutcome
  | ok (runtimes : List Int)
  | err
  | panicked (p : PanicReason)
deriving DecidableEq

/-- Parse every retained token with `strconv.ParseInt(_, 10, 32)`; the first
failure is the explicit `panic(fmt.Errorf(...))` of the source. -/
def parseRuntimes : List (List Char) → Except PanicReason (List Int)
  | [] => .ok []
  | t :: ts =>
    match goParseInt32 t with
    | none => .error (.parseRuntime (String.mk t))
    | some v =>
      match parseRuntimes ts with
      | .error p => .error p
      | .ok vs => .ok (v :: vs)

/-- `readCpuRtMultiRuntimeFile`: read the file (`content` is its text, none a
read error), split on spaces, drop the last two tokens
(`runtimeStrings[:len(runtimeStrings)-2]`, a slice-bounds panic when fewer
than two tokens exist), and parse the rest. -/
def readCpuRtMultiRuntimeFile : Option String → ReadOutcome
  | none => .err
  | some buf =>
    let runtimeStrings := splitOnChar ' ' buf.data
    if runtimeStrings.length < 2 then .panicked .sliceBounds
    else
      match parseRuntimes (runtimeStrings.take (runtimeStrings.length - 2)) with
      | .error p => .panicked p
      | .ok rs => .ok rs

/-- The per-core addition loop of `writeToParentMultiRuntime`: for each
cpuset token, `runtimes[cpuIND] = runtimes[cpuIND] + rt`, panicking when the
(error-discarded) index is out of range. -/
def addRuntimes : List Int → List Int → Int → Except PanicReason (List Int)
  | rs, [], _ => .ok rs
  | rs, i :: is, rt =>
    if 0 ≤ i ∧ i < (rs.length : Int) then
      addRuntimes (rs.set i.toNat (rs.getD i.toNat 0 + rt)) is rt
    else .error .indexOutOfRange

/-- The write loop of `writeToParentMultiRuntime`:
`str += strconv.Itoa(cpu) + " " + strconv.FormatInt(runtime, 10) + " "`. -/
def formatLedgerAux : Nat → List Int → String
  | _, [] => ""
  | i, v :: vs => Nat.repr i ++ " " ++ Int.repr v ++ " " ++ formatLedgerAux (i + 1) vs

/-- The full ledger serialization written back to an ancestor. -/
def formatLedger (rs : List Int) : String := formatLedgerAux 0 rs

/-- The cpuset token list: `strings.Split(r.CpusetCpus, ",")` then `Atoi`
with the error discarded. -/
def cpusetIndices (cpusetCpus : String) : List Int :=
  (splitOnChar ',' cpusetCpus.data).map goAtoiOrZero

/-- Result of one `writeToParentMultiRuntime` call. -/
inductive WPMRResult
  | fatal
  | panicked (p : PanicReason)
  | wroteErr (s : String) (e : GoErr)
  | wroteOk (s : String)
deriving DecidableEq

/-- `writeToParentMultiRuntime(path, r)`: open the debug log
(`debugParentLogPath`; a failed open is `log.Fatal`), read the ancestor
ledger discarding the read error (a failed read leaves `runtimes` empty), add
the runtime at every cpuset index, serialize, and write the file back
(`writeErr` is that write's outcome, which the callers discard). -/
def writeToParentMultiRuntime (logOpenFails : Bool) (content : Option String)
    (writeErr : Option GoErr) (cpusetCpus : String) (rtRuntime : Int) : WPMRResult :=
  if logOpenFails then .fatal
  else
    match readCpuRtMultiRuntimeFile content with
    | .panicked p => .panicked p
    | .err =>
      match addRuntimes [] (cpusetIndices cpusetCpus) rtRuntime with
      | .error p => .panicked p
      | .ok newRuntimes =>
        match writeErr with
        | some e => .wroteErr (formatLedger newRuntimes) e
        | none => .wroteOk (formatLedger newRuntimes)
    | .ok rs =>
      match addRuntimes rs (cpusetIndices cpusetCpus) rtRuntime with
      | .error p => .panicked p
      | .ok newRuntimes =>
        match writeErr with
        | some e => .wroteErr (formatLedger newRuntimes) e
        | none => .wroteOk (formatLedger newRuntimes)

/-! ## CPU controller: Set, SetRtSched, Apply -/

/-- The fields of `configs.Resources` the cpu controller reads. -/
structure Resources where
  CpuShares : Nat
  CpuQuota : Int
  CpuPeriod : Nat
  CpuRtRuntime : Int
  CpuRtPeriod : Nat
  CpusetCpus : String
deriving DecidableEq

/-- The four ledger files `SetRtSched` touches, outermost ancestor first:
`kubepods.slice`, `kubepods-besteffort.slice`, the pod directory
(`filepath.Dir(path)`), and the container's own cgroup. -/
inductive Level
  | kubepods
  | besteffort
  | pod
  | container
deriving DecidableEq

/-- Control-file writes the cpu controller performs, in order.  A recorded
write means the corresponding `WriteFile` call was made (it may itself have
failed). -/
inductive CpuWrite
  | shares (v : Nat)
  | cfsPeriod (v : Nat)
  | cfsQuota (v : Int)
  | rtPeriod (v : Nat)
  | ledger (l : Level) (s : String)
deriving DecidableEq

/-- How a `Set`, `SetRtSched` or `Apply` call ends, together with its write
trace. -/
inductive Outcome
  | ok
  | err (e : GoErr)
  | panicked (p : PanicReason)
  | fatal
deriving DecidableEq

/-- A cpu-controller run: its end and the control-file writes it made. -/
structure SetResult where
  outcome : Outcome
  writes : List CpuWrite
deriving DecidableEq

/-- Collaborator outcomes for `SetRtSched`: the text of each ancestor ledger
file (none is a read error), each ledger write's outcome, the
`cpu.rt_period_us` write, and whether opening `debugParentLogPath` fails. -/
structure RtEnv where
  parentLogOpenFails : Bool
  rtPeriodWriteErr : Option GoErr
  kubepodsContent : Option String
  besteffortContent : Option String
  podContent : Option String
  kubepodsWriteErr : Option GoErr
  besteffortWriteErr : Option GoErr
  podWriteErr : Option GoErr
  containerWriteErr : Option GoErr
deriving DecidableEq

/-- The ledger text at an ancestor level (unused for `container`). -/
def levelContent (env : RtEnv) : Level → Option String
  | .kubepods => env.kubepodsContent
  | .besteffort => env.besteffortContent
  | .pod => env.podContent
  | .container => none

/-- The ledger write outcome at a level. -/
def levelWriteErr (env : RtEnv) : Level → Option GoErr
  | .kubepods => env.kubepodsWriteErr
  | .besteffort => env.besteffortWriteErr
  | .pod => env.podWriteErr
  | .container => env.containerWriteErr

/-- The `writeToParentMultiRuntime` call `SetRtSched` makes at one ancestor
level. -/
def wpmrAt (env : RtEnv) (r : Resources) (l : Level) : WPMRResult :=
  writeToParentMultiRuntime env.parentLogOpenFails (levelContent env l)
    (levelWriteErr env l) r.CpusetCpus r.CpuRtRuntime

/-- The `cpu.rt_period_us` write at the head of `SetRtSched`: an error is
returned unless it is EINVAL while a runtime is also being set, in which case
it is swallowed. -/
def rtPeriodStep (env : RtEnv) (r : Resources) : Except (List CpuWrite × GoErr) (List CpuWrite) :=
  if r.CpuRtPeriod = 0 then .ok []
  else
    match env.rtPeriodWriteErr with
    | none => .ok [.rtPeriod r.CpuRtPeriod]
    | some e =>
      if ¬e = GoErr.einval ∨ r.CpuRtRuntime = 0 then .error ([.rtPeriod r.CpuRtPeriod], e)
      else .ok [.rtPeriod r.CpuRtPeriod]

/-- `CpuGroup.SetRtSched(path, r)`: the rt-period write, then, when a nonzero
runtime is requested, the three ancestor ledger contributions (their returned
errors discarded; their panics and fatals propagate) followed by the write of
the container's own record `CpusetCpus + " " + FormatInt(CpuRtRuntime, 10)`,
whose error is returned. -/
def CpuGroup.SetRtSched (env : RtEnv) (r : Resources) : SetResult :=
  match rtPeriodStep env r with
  | .error (ws, e) => { outcome := .err e, writes := ws }
  | .ok ws0 =>
    if r.CpuRtRuntime = 0 then { outcome := .ok, writes := ws0 }
    else
      match wpmrAt env r .kubepods with
      | .fatal => { outcome := .fatal, writes := ws0 }
      | .panicked p => { outcome := .panicked p, writes := ws0 }
      | .wroteErr s1 _ | .wroteOk s1 =>
        match wpmrAt env r .besteffort with
        | .fatal => { outcome := .fatal, writes := ws0 ++ [.ledger .kubepods s1] }
        | .panicked p => { outcome := .panicked p, writes := ws0 ++ [.ledger .kubepods s1] }
        | .wroteErr s2 _ | .wroteOk s2 =>
          match wpmrAt env r .pod with
          | .fatal =>
            { outcome := .fatal
              writes := ws0 ++ [.ledger .kubepods s1, .ledger .besteffort s2] }
          | .panicked p =>
            { outcome := .panicked p
              writes := ws0 ++ [.ledger .kubepods s1, .ledger .besteffort s2] }
          | .wroteErr s3 _ | .wroteOk s3 =>
            let cstr := r.CpusetCpus ++ " " ++ Int.repr r.CpuRtRuntime
            let ws := ws0 ++ [.ledger .kubepods s1, .ledger .besteffort s2,
              .ledger .pod s3, .ledger .container cstr]
            match env.containerWriteErr with
            | some e => { outcome := .err e, writes := ws }
            | none => { outcome := .ok, writes := ws }

/-- Collaborator outcomes for `CpuGroup.Set`: the `cpu.shares` write and
read-back, the two possible `cpu.cfs_period_us` writes and the
`cpu.cfs_quota_us` write, plus the `SetRtSched` environment. -/
structure SetEnv where
  sharesWriteErr : Option GoErr
  sharesRead : Except GoErr Nat
  cfsPeriodWrite1Err : Option GoErr
  cfsQuotaWriteErr : Option GoErr
  cfsPeriodWrite2Err : Option GoErr
  rt : RtEnv
deriving DecidableEq

/-- The `CpuShares` block of `CpuGroup.Set`: write, read back, and reject any
deviation, citing the read-back value as the bound. -/
def sharesStep (env : SetEnv) (r : Resources) : Except (List CpuWrite × GoErr) (List CpuWrite) :=
  if r.CpuShares = 0 then .ok []
  else
    match env.sharesWriteErr with
    | some e => .error ([.shares r.CpuShares], e)
    | none =>
      match env.sharesRead with
      | .error e => .error ([.shares r.CpuShares], e)
      | .ok v =>
        if r.CpuShares > v then .error ([.shares r.CpuShares], .maxShares v)
        else if r.CpuShares < v then .error ([.shares r.CpuShares], .minShares v)
        else .ok [.shares r.CpuShares]

/-- The CFS period/quota block of `CpuGroup.Set`: an EINVAL on the period
write with a nonzero pending quota defers the period; the quota write is
followed by the deferred period retry. -/
def cfsStep (env : SetEnv) (r : Resources) : Except (List CpuWrite × GoErr) (List CpuWrite) :=
  let afterPeriod : Except (List CpuWrite × GoErr) (List CpuWrite × Bool) :=
    if r.CpuPeriod = 0 then .ok ([], false)
    else
      match env.cfsPeriodWrite1Err with
      | none => .ok ([.cfsPeriod r.CpuPeriod], false)
      | some e =>
        if ¬e = GoErr.einval ∨ r.CpuQuota = 0 then .error ([.cfsPeriod r.CpuPeriod], e)
        else .ok ([.cfsPeriod r.CpuPeriod], true)
  match afterPeriod with
  | .error x => .error x
  | .ok (ws, deferred) =>
    if r.CpuQuota = 0 then .ok ws
    else
      match env.cfsQuotaWriteErr with
      | some e => .error (ws ++ [.cfsQuota r.CpuQuota], e)
      | none =>
        if deferred then
          match env.cfsPeriodWrite2Err with
          | some e => .error (ws ++ [.cfsQuota r.CpuQuota, .cfsPeriod r.CpuPeriod], e)
          | none => .ok (ws ++ [.cfsQuota r.CpuQuota, .cfsPeriod r.CpuPeriod])
        else .ok (ws ++ [.cfsQuota r.CpuQuota])

/-- `CpuGroup.Set(path, r)`: shares, CFS period/quota, then always
`SetRtSched`. -/
def CpuGroup.Set (env : SetEnv) (r : Resources) : SetResult :=
  match sharesStep env r with
  | .error (ws, e) => { outcome := .err e, writes := ws }
  | .ok ws1 =>
    match cfsStep env r with
    | .error (ws, e) => { outcome := .err e, writes := ws1 ++ ws }
    | .ok ws2 =>
      let rtr := CpuGroup.SetRtSched env.rt r
      { outcome := rtr.outcome, writes := ws1 ++ ws2 ++ rtr.writes }

/-- Collaborator outcomes for `CpuGroup.Apply`: the `os.MkdirAll`, the
`SetRtSched` environment, and the final `cgroups.WriteCgroupProc`. -/
structure ApplyEnv where
  mkdirErr : Option GoErr
  rt : RtEnv
  writeProcErr : Option GoErr
deriving DecidableEq

/-- `CpuGroup.Apply(path, r, pid)`: create the directory, configure the
real-time settings, then register the pid. -/
def CpuGroup.Apply (env : ApplyEnv) (r : Resources) : SetResult :=
  match env.mkdirErr with
  | some e => { outcome := .err e, writes := [] }
  | none =>
    let s := CpuGroup.SetRtSched env.rt r
    match s.outcome with
    | .ok =>
      match env.writeProcErr with
      | some e => { outcome := .err e, writes := s.writes }
      | none => { outcome := .ok, writes := s.writes }
    | o => { outcome := o, writes := s.writes }

/-- A benign `RtEnv`: no failures, every ledger readable. -/
def rtEnv0 : RtEnv :=
  { parentLogOpenFails := false
    rtPeriodWriteErr := none
    kubepodsContent := some "0 0 0"
    besteffortContent := some "0 0 0"
    podContent := some "0 0 0"
    kubepodsWriteErr := none
    besteffortWriteErr := none
    podWriteErr := none
    containerWriteErr := none }

/-- Resources with every field zero. -/
def res0 : Resources :=
  { CpuShares := 0, CpuQuota := 0, CpuPeriod := 0, CpuRtRuntime := 0
    CpuRtPeriod := 0, CpusetCpus := "" }

/-! ## Helpers for the ledger-abort claims -/

/-- The ledger writes of a trace. -/
def ledgerWrites (ws : List CpuWrite) : List CpuWrite :=
  ws.filter fun w => match w with | .ledger _ _ => true | _ => false

/-- The string a `writeToParentMultiRuntime` call wrote, when it reached its
write. -/
def wroteStr : WPMRResult → Option String
  | .wroteOk s => some s
  | .wroteErr s _ => some s
  | _ => none

/-- Whether an outcome is an error return. -/
def Outcome.isErr : Outcome → Bool
  | .err _ => true
  | _ => false

/-! ## Concrete environments instantiating the claims -/

/-- An apply environment whose outermost ancestor ledger holds an unparsable
token. -/
def c3Env : ApplyEnv :=
  { mkdirErr := none, rt := { rtEnv0 with kubepodsContent := some "abc x y" }
    writeProcErr := none }

/-- A container requesting one microsecond of real-time runtime on core 0. -/
def c3Res : Resources := { res0 with CpuRtRuntime := 1, CpusetCpus := "0" }

/-- A `Set` environment in which the shares write succeeds and the read-back
yields `v`, with no other failure. -/
def c7Env (v : Nat) : SetEnv :=
  { sharesWriteErr := none, sharesRead := .ok v, cfsPeriodWrite1Err := none
    cfsQuotaWriteErr := none, cfsPeriodWrite2Err := none, rt := rtEnv0 }

/-- Resources requesting only a share weight. -/
def c7Res (shares : Nat) : Resources := { res0 with CpuShares := shares }

/-- A `Set` environment for the period/quota interplay: `p1` is the first
period write, `qe` the quota write, `p2` the period retry; shares are not
requested. -/
def c8Env (p1 qe p2 : Option GoErr) : SetEnv :=
  { sharesWriteErr := none, sharesRead := .ok 0, cfsPeriodWrite1Err := p1
    cfsQuotaWriteErr := qe, cfsPeriodWrite2Err := p2, rt := rtEnv0 }

/-- Resources requesting only CFS period and quota. -/
def c8Res (p : Nat) (q : Int) : Resources := { res0 with CpuPeriod := p, CpuQuota := q }

/-- A `Set` environment whose kubepods ledger read fails, leaving no parsed
entries. -/
def c9EnvA : SetEnv :=
  { sharesWriteErr := none, sharesRead := .ok 0, cfsPeriodWrite1Err := none
    cfsQuotaWriteErr := none, cfsPeriodWrite2Err := none
    rt := { rtEnv0 with kubepodsContent := none } }

/-- Real-time runtime on core 0 only. -/
def c9ResA : Resources := { res0 with CpuRtRuntime := 5, CpusetCpus := "0" }

/-- A `Set` environment whose kubepods ledger retains a non-numeric token
after trimming. -/
def c9EnvB : SetEnv :=
  { sharesWriteErr := none, sharesRead := .ok 0, cfsPeriodWrite1Err := none
    cfsQuotaWriteErr := none, cfsPeriodWrite2Err := none
    rt := { rtEnv0 with kubepodsContent := some "12 abc 3 4" } }

/-- Real-time runtime on core 1 only. -/
def c9ResB : Resources := { res0 with CpuRtRuntime := 7, CpusetCpus := "1" }

/-- Sequential application of two containers' contributions to the same
ancestor ledger file, at file-content level: each step is a full
`writeToParentMultiRuntime` whose written text is fed to the next. -/
def seqLedgerApply (content : String) (cpus1 : String) (rt1 : Int)
    (cpus2 : String) (rt2 : Int) : Option String :=
  match writeToParentMultiRuntime false (some content) none cpus1 rt1 with
  | .wroteOk s =>
    match writeToParentMultiRuntime false (some s) none cpus2 rt2 with
    | .wroteOk s2 => some s2
    | _ => none
  | _ => none

/-! ## Sanity checks of the embedding on concrete runs -/

example : transition .running .running .stopped = .error .errRunning := rfl
example : transition .restored .created .restored =
    .error (.stateTransition "running" "running") := rfl
example : specExpected .running .stopped = .ok .stopped := rfl
example : transition .stopped .stopped (.loaded .paused) =
    .error (.stateTransition "stopped" "paused") := rfl

example :
    destroy ⟨true, "", false, true, .running⟩ ⟨false, none, some (.other 1), none, some (.other 2), none⟩
      = { steps := [DStep.cgroupDestroy, DStep.removeAll, DStep.poststopHooks]
          outcome := .returned (some (.other 1)) ⟨true, "", false, false, .stopped⟩ } := by decide

example :
    destroy ⟨false, "", true, true, .running⟩ ⟨true, none, none, none, none, none⟩
      = { steps := [], outcome := .fatal } := by decide

example : goParseInt32 "15".data = some 15 := by decide
example : goParseInt32 "-7".data = some (-7) := by decide
example : goParseInt32 "abc".data = none := by decide
example : goParseInt32 "".data = none := by decide
example : goAtoiOrZero "2".data = 2 := by decide
example : goAtoiOrZero "x".data = 0 := by decide
example : splitOnChar ' ' "5 7 0 0".data = ["5".data, "7".data, "0".data, "0".data] := by decide
example : splitOnChar ' ' "0 15 1 7 ".data
    = ["0".data, "15".data, "1".data, "7".data, "".data] := by decide

example :
    writeToParentMultiRuntime false (some "5 7 0 0") none "0" 10
      = .wroteOk "0 15 1 7 " := by decide
example :
    writeToParentMultiRuntime false (some "0 15 1 7 ") none "1" 20
      = .wroteOk "0 0 1 35 2 1 " := by decide
example :
    writeToParentMultiRuntime false (some "5 7 0 0") none "1" 20
      = .wroteOk "0 5 1 27 " := by decide
example :
    writeToParentMultiRuntime false (some "0 5 1 27 ") none "0" 10
      = .wroteOk "0 10 1 5 2 1 " := by decide
example :
    writeToParentMultiRuntime false none none "0" 5
      = .panicked .indexOutOfRange := by decide
example :
    writeToParentMultiRuntime false (some "abc x y") none "0" 1
      = .panicked (.parseRuntime "abc") := by decide
example :
    writeToParentMultiRuntime true (some "5 7 0 0") none "0" 10 = .fatal := by decide

example :
    CpuGroup.Set (c7Env 512) (c7Res 512)
      = { outcome := .ok, writes := [.shares 512] } := by decide
example :
    CpuGroup.Set (c7Env 256) (c7Res 512)
      = { outcome := .err (.maxShares 256), writes := [.shares 512] } := by decide
example :
    CpuGroup.Set (c8Env (some .einval) none none) (c8Res 100000 50000)
      = { outcome := .ok
          writes := [.cfsPeriod 100000, .cfsQuota 50000, .cfsPeriod 100000] } := by decide
example :
    CpuGroup.Apply c3Env c3Res
      = { outcome := .panicked (.parseRuntime "abc"), writes := [] } := by decide

/-- The rt-period step never writes a ledger. -/
theorem rtPeriodStep_no_ledger (env : RtEnv) (r : Resources) (ws : List CpuWrite)
    (h : rtPeriodStep env r = .ok ws) : ledgerWrites ws = [] := by
  unfold rtPeriodStep at h
  by_cases h0 : r.CpuRtPeriod = 0
  · simp [h0] at h
    subst h
    rfl
  · rw [if_neg h0] at h
    cases he : env.rtPeriodWriteErr with
    | none =>
      rw [he] at h
      simp at h
      subst h
      rfl
    | some e =>
      rw [he] at h
      by_cases hc : ¬e = GoErr.einval ∨ r.CpuRtRuntime = 0
      · simp [if_pos hc] at h
      · simp [if_neg hc] at h
        subst h
        rfl

/-- `SetRtSched` when the kubepods-level ledger processing panics: the panic
propagates and no ledger write at all has happened. -/
theorem setRtSched_kubepods_panic (env : RtEnv) (r : Resources) (p : PanicReason)
    (ws0 : List CpuWrite) (hrt : r.CpuRtRuntime ≠ 0) (hper : rtPeriodStep env r = .ok ws0)
    (h1 : wpmrAt env r .kubepods = .panicked p) :
    CpuGroup.SetRtSched env r = { outcome := .panicked p, writes := ws0 } := by
  simp [CpuGroup.SetRtSched, hper, hrt, h1]

/-- `SetRtSched` when the kubepods level wrote and the besteffort-level
ledger processing panics: only the kubepods ledger write has happened. -/
theorem setRtSched_besteffort_panic (env : RtEnv) (r : Resources) (p : PanicReason)
    (ws0 : List CpuWrite) (s1 : String) (hrt : r.CpuRtRuntime ≠ 0)
    (hper : rtPeriodStep env r = .ok ws0)
    (h1 : wroteStr (wpmrAt env r .kubepods) = some s1)
    (h2 : wpmrAt env r .besteffort = .panicked p) :
    CpuGroup.SetRtSched env r
      = { outcome := .panicked p, writes := ws0 ++ [.ledger .kubepods s1] } := by
  cases hk : wpmrAt env r .kubepods with
  | fatal => simp [wroteStr, hk] at h1
  | panicked q => simp [wroteStr, hk] at h1
  | wroteErr s e =>
    simp [wroteStr, hk] at h1
    subst h1
    simp [CpuGroup.SetRtSched, hper, hrt, hk, h2]
  | wroteOk s =>
    simp [wroteStr, hk] at h1
    subst h1
    simp [CpuGroup.SetRtSched, hper, hrt, hk, h2]

/-- `SetRtSched` when the two outer levels wrote and the pod-level ledger
processing panics: only the two outer ledger writes have happened. -/
theorem setRtSched_pod_panic (env : RtEnv) (r : Resources) (p : PanicReason)
    (ws0 : List CpuWrite) (s1 s2 : String) (hrt : r.CpuRtRuntime ≠ 0)
    (hper : rtPeriodStep env r = .ok ws0)
    (h1 : wroteStr (wpmrAt env r .kubepods) = some s1)
    (h2 : wroteStr (wpmrAt env r .besteffort) = some s2)
    (h3 : wpmrAt env r .pod = .panicked p) :
    CpuGroup.SetRtSched env r
      = { outcome := .panicked p
          writes := ws0 ++ [.ledger .kubepods s1, .ledger .besteffort s2] } := by
  cases hk : wpmrAt env r .kubepods with
  | fatal => simp [wroteStr, hk] at h1
  | panicked q => simp [wroteStr, hk] at h1
  | wroteErr s e =>
    simp [wroteStr, hk] at h1
    subst h1
    cases hb : wpmrAt env r .besteffort with
    | fatal => simp [wroteStr, hb] at h2
    | panicked q => simp [wroteStr, hb] at h2
    | wroteErr t f =>
      simp [wroteStr, hb] at h2
      subst h2
      simp [CpuGroup.SetRtSched, hper, hrt, hk, hb, h3]
    | wroteOk t =>
      simp [wroteStr, hb] at h2
      subst h2
      simp [CpuGroup.SetRtSched, hper, hrt, hk, hb, h3]
  | wroteOk s =>
    simp [wroteStr, hk] at h1
    subst h1
    cases hb : wpmrAt env r .besteffort with
    | fatal => simp [wroteStr, hb] at h2
    | panicked q => simp [wroteStr, hb] at h2
    | wroteErr t f =>
      simp [wroteStr, hb] at h2
      subst h2
      simp [CpuGroup.SetRtSched, hper, hrt, hk, hb, h3]
    | wroteOk t =>
      simp [wroteStr, hb] at h2
      subst h2
      simp [CpuGroup.SetRtSched, hper, hrt, hk, hb, h3]

/-- A panic inside `SetRtSched` is the outcome of the whole `Apply` call,
with the same write trace. -/
theorem apply_of_setRtSched_panic (env : ApplyEnv) (r : Resources) (p : PanicReason)
    (ws : List CpuWrite) (hmk : env.mkdirErr = none)
    (h : CpuGroup.SetRtSched env.rt r = { outcome := .panicked p, writes := ws }) :
    CpuGroup.Apply env r = { outcome := .panicked p, writes := ws } := by
  simp [CpuGroup.Apply, hmk, h]

/-! ## Claim C1: the transition table -/

/-- Claim C1, as stated, is false on the code: a Running current state whose
liveness check reports Running has Stopped as a listed target, yet
`transition` returns `ErrRunning` and leaves the state unchanged instead of
swapping to Stopped. -/
theorem c1_running_live_stopped_counterexample :
    transition .running .running .stopped = .error .errRunning
    ∧ specExpected .running .stopped = .ok .stopped
    ∧ transition .running .running .stopped ≠ specExpected .running .stopped := by
  decide

/-- Claim C1 (amended): `transition` agrees with the spec transition table
everywhere, except that a Running state with a live process refuses a Stopped
target with `ErrRunning` (state unchanged) and a Restored state refuses a
Restored target with the invalid-transition error naming running on both
sides. -/
theorem c1_transition_matches_table (cur : StateKind) (rt : Status) (t : StateKind) :
    transition cur rt t = amendedExpected cur rt t := by
  cases cur <;> cases t <;> cases rt <;> rfl

/-! ## Claim C2: the global destroy protocol -/

/-- Claim C2: whenever `destroy` returns (that is, the force-kill branch does
not hit the fatal debug-log open, the situation of claim C10), it performs
the cgroup destroy, the Intel RDT destroy when a manager is attached, the
recursive root removal and the poststop hooks regardless of failures, returns
the first non-nil error among those steps, and hands back the container with
the init-process handle cleared and the state set to Stopped. -/
theorem c2_destroy_best_effort (c : Container) (env : DestroyEnv)
    (h : forceKillBranch c = false ∨ env.destroyLogOpenFails = false) :
    (destroy c env).outcome =
      DestroyOutcome.returned (firstSome (destroyStepErrs c env))
        { c with hasInitProcess := false, state := StateKind.stopped }
    ∧ DStep.cgroupDestroy ∈ (destroy c env).steps
    ∧ (c.hasIntelRdt = true → DStep.intelRdtDestroy ∈ (destroy c env).steps)
    ∧ DStep.removeAll ∈ (destroy c env).steps
    ∧ DStep.poststopHooks ∈ (destroy c env).steps := by
  have hrun : destroy c env
      = destroyRest c env (if forceKillBranch c then [DStep.forceKill] else []) := by
    rcases h with h | h
    · simp [destroy, h]
    · by_cases hb : forceKillBranch c <;> simp [destroy, hb, h]
  rw [hrun]
  unfold destroyRest destroyStepErrs
  by_cases hrdt : c.hasIntelRdt <;>
    simp [hrdt] <;>
    cases env.cgroupDestroyErr <;>
    cases env.intelRdtDestroyErr <;>
    cases env.removeAllErr <;>
    cases env.poststopErr <;>
    simp [firstErr, firstSome]

/-- Witness for C2 at a concrete container and environment in which the
cgroup destroy and the poststop hooks both fail: the cgroup error is the one
returned. -/
theorem c2_destroy_best_effort_witness :
    (destroy ⟨true, "", true, true, .running⟩
        ⟨false, none, some (.other 1), none, none, some (.other 2)⟩).outcome =
      DestroyOutcome.returned
        (firstSome (destroyStepErrs ⟨true, "", true, true, .running⟩
          ⟨false, none, some (.other 1), none, none, some (.other 2)⟩))
        ⟨true, "", true, false, .stopped⟩ :=
  (c2_destroy_best_effort ⟨true, "", true, true, .running⟩
    ⟨false, none, some (.other 1), none, none, some (.other 2)⟩ (Or.inl rfl)).1

/-! ## Claim C5: destroy on a live Running state -/

/-- Claim C5: `runningState.destroy` with a liveness check reporting Running
always returns `ErrRunning`, performs no step, and leaves the container
(cgroups, root, init handle, state field) untouched. -/
theorem c5_running_destroy_live (c : Container) (env : DestroyEnv) :
    runningStateDestroy c Status.running env
      = { steps := [], outcome := .returned (some GoErr.errRunning) c } := by
  simp [runningStateDestroy]

/-! ## Claim C6: destroy on a Paused state -/

/-- Claim C6: `pausedState.destroy` with a liveness check reporting running
or created returns `ErrPaused` with no thaw and no cleanup; otherwise it
thaws first, returns the thaw error on failure without any cleanup, and runs
the global destroy only after a successful thaw. -/
theorem c6_paused_destroy (c : Container) (rt : Status) (freezeErr : Option GoErr)
    (env : DestroyEnv) :
    ((rt = Status.running ∨ rt = Status.created) →
      pausedStateDestroy c rt freezeErr env
        = { steps := [], outcome := .returned (some GoErr.errPaused) c })
    ∧ (rt ≠ Status.running → rt ≠ Status.created →
      (∀ e, freezeErr = some e →
        pausedStateDestroy c rt freezeErr env
          = { steps := [DStep.thaw], outcome := .returned (some e) c })
      ∧ (freezeErr = none →
        pausedStateDestroy c rt freezeErr env
          = { steps := DStep.thaw :: (destroy c env).steps
              outcome := (destroy c env).outcome })) := by
  constructor
  · intro h
    rcases h with h | h <;> simp [pausedStateDestroy, h]
  · intro h1 h2
    constructor
    · intro e he
      simp [pausedStateDestroy, h1, h2, he]
    · intro he
      simp [pausedStateDestroy, h1, h2, he]

/-- Witness for C6: a paused container whose process still reports running
is refused with `ErrPaused`, untouched; one whose process reports stopped and
whose thaw fails gets exactly the thaw attempt and the thaw error back. -/
theorem c6_paused_destroy_witness :
    pausedStateDestroy ⟨true, "", false, true, .paused⟩ .running none
        ⟨false, none, none, none, none, none⟩
      = { steps := []
          outcome := .returned (some GoErr.errPaused) ⟨true, "", false, true, .paused⟩ }
    ∧ pausedStateDestroy ⟨true, "", false, true, .paused⟩ .stopped (some (.other 7))
        ⟨false, none, none, none, none, none⟩
      = { steps := [DStep.thaw]
          outcome := .returned (some (.other 7)) ⟨true, "", false, true, .paused⟩ } :=
  ⟨(c6_paused_destroy ⟨true, "", false, true, .paused⟩ .running none
      ⟨false, none, none, none, none, none⟩).1 (Or.inl rfl),
    ((c6_paused_destroy ⟨true, "", false, true, .paused⟩ .stopped (some (.other 7))
      ⟨false, none, none, none, none, none⟩).2 (by decide) (by decide)).1 (.other 7) rfl⟩

/-! ## Claim C3: malformed ancestor ledger content -/

/-- Claim C3, as stated, is false on the code: malformed content in the
kubepods ancestor ledger makes the whole apply call panic (the explicit
`panic(fmt.Errorf(...))` of the parser), not abort with an error return; no
ledger write happens. -/
theorem c3_malformed_ledger_counterexample :
    CpuGroup.Apply c3Env c3Res
      = { outcome := .panicked (.parseRuntime "abc"), writes := [] }
    ∧ (CpuGroup.Apply c3Env c3Res).outcome.isErr = false := by
  decide

/-- Claim C3 (amended): malformed or unparsable content in an ancestor
ledger aborts the whole apply call by panic before any write to that
ancestor's ledger or to any ledger processed after it (its descendants); only
the ledgers of ancestors processed earlier can already have been written. -/
theorem c3_malformed_ledger_aborts (env : ApplyEnv) (r : Resources)
    (ws0 : List CpuWrite) (p : PanicReason)
    (hmk : env.mkdirErr = none) (hrt : r.CpuRtRuntime ≠ 0)
    (hper : rtPeriodStep env.rt r = .ok ws0) :
    (wpmrAt env.rt r .kubepods = .panicked p →
      CpuGroup.Apply env r = { outcome := .panicked p, writes := ws0 }
      ∧ ledgerWrites ws0 = [])
    ∧ (∀ s1, wroteStr (wpmrAt env.rt r .kubepods) = some s1 →
      wpmrAt env.rt r .besteffort = .panicked p →
      CpuGroup.Apply env r
        = { outcome := .panicked p, writes := ws0 ++ [.ledger .kubepods s1] }
      ∧ ledgerWrites (ws0 ++ [.ledger .kubepods s1]) = [.ledger .kubepods s1])
    ∧ (∀ s1 s2, wroteStr (wpmrAt env.rt r .kubepods) = some s1 →
      wroteStr (wpmrAt env.rt r .besteffort) = some s2 →
      wpmrAt env.rt r .pod = .panicked p →
      CpuGroup.Apply env r
        = { outcome := .panicked p
            writes := ws0 ++ [.ledger .kubepods s1, .ledger .besteffort s2] }
      ∧ ledgerWrites (ws0 ++ [.ledger .kubepods s1, .ledger .besteffort s2])
        = [.ledger .kubepods s1, .ledger .besteffort s2]) := by
  have hws0 : ledgerWrites ws0 = [] := rtPeriodStep_no_ledger env.rt r ws0 hper
  refine ⟨?_, ?_, ?_⟩
  · intro h1
    exact ⟨apply_of_setRtSched_panic env r p ws0 hmk
      (setRtSched_kubepods_panic env.rt r p ws0 hrt hper h1), hws0⟩
  · intro s1 h1 h2
    refine ⟨apply_of_setRtSched_panic env r p _ hmk
      (setRtSched_besteffort_panic env.rt r p ws0 s1 hrt hper h1 h2), ?_⟩
    simp [ledgerWrites, List.filter_append] at hws0 ⊢
    exact hws0
  · intro s1 s2 h1 h2 h3
    refine ⟨apply_of_setRtSched_panic env r p _ hmk
      (setRtSched_pod_panic env.rt r p ws0 s1 s2 hrt hper h1 h2 h3), ?_⟩
    simp [ledgerWrites, List.filter_append] at hws0 ⊢
    exact hws0

/-- Witness for the amended C3: with a well-formed kubepods ledger and a
malformed besteffort ledger, the apply call panics having written only the
kubepods ledger. -/
theorem c3_malformed_ledger_aborts_witness :
    CpuGroup.Apply
      { mkdirErr := none, rt := { rtEnv0 with besteffortContent := some "9 q 1 2" }
        writeProcErr := none }
      c3Res
      = { outcome := .panicked (.parseRuntime "q")
          writes := [] ++ [.ledger .kubepods "0 1 "] }
    ∧ ledgerWrites ([] ++ [CpuWrite.ledger .kubepods "0 1 "])
      = [CpuWrite.ledger .kubepods "0 1 "] :=
  (c3_malformed_ledger_aborts
      { mkdirErr := none, rt := { rtEnv0 with besteffortContent := some "9 q 1 2" }
        writeProcErr := none }
      c3Res [] (.parseRuntime "q") rfl (by decide) (by decide)).2.1
    "0 1 " (by decide) (by decide)

/-! ## Claim C10: the hard-coded debug log and log.Fatal -/

/-- Claim C10: the force-kill branch of `destroy` and every ancestor-ledger
propagation first open a hard-coded log file under /home/worker3/, and a
failed open terminates the whole process (`log.Fatal`) before any step runs,
instead of returning an error. -/
theorem c10_debug_log_fatal :
    (∀ (c : Container) (env : DestroyEnv), forceKillBranch c = true →
      env.destroyLogOpenFails = true →
      destroy c env = { steps := [], outcome := .fatal })
    ∧ (∀ (content : Option String) (writeErr : Option GoErr) (cpus : String) (rt : Int),
      writeToParentMultiRuntime true content writeErr cpus rt = .fatal)
    ∧ debugDestroyLogPath = "/home/worker3/debugdestroy.log"
    ∧ debugParentLogPath = "/home/worker3/debugparent.log" := by
  refine ⟨?_, ?_, rfl, rfl⟩
  · intro c env h1 h2
    simp [destroy, h1, h2]
  · intro content writeErr cpus rt
    rfl

/-- Witness for C10: a container without a private PID namespace whose
debug-log open fails dies fatally with no step run, and a ledger propagation
whose debug-log open fails dies fatally. -/
theorem c10_debug_log_fatal_witness :
    destroy ⟨false, "", false, true, .running⟩ ⟨true, none, none, none, none, none⟩
      = { steps := [], outcome := .fatal }
    ∧ writeToParentMultiRuntime true (some "0 0 0") none "0" 1 = .fatal :=
  ⟨c10_debug_log_fatal.1 ⟨false, "", false, true, .running⟩
      ⟨true, none, none, none, none, none⟩ rfl rfl,
    c10_debug_log_fatal.2.1 (some "0 0 0") none "0" 1⟩

/-! ## Claim C7: shares round-trip validation -/

/-- Claim C7: with a nonzero requested share weight, the weight is written
and read back; the call succeeds exactly when the read-back equals the
request, an over-request fails naming the read-back as the allowed maximum,
and an under-request fails naming it as the allowed minimum. -/
theorem c7_shares_roundtrip (shares v : Nat) (h : shares ≠ 0) :
    ((CpuGroup.Set (c7Env v) (c7Res shares)).outcome = .ok ↔ v = shares)
    ∧ (shares > v →
      (CpuGroup.Set (c7Env v) (c7Res shares)).outcome = .err (.maxShares v))
    ∧ (shares < v →
      (CpuGroup.Set (c7Env v) (c7Res shares)).outcome = .err (.minShares v))
    ∧ (CpuGroup.Set (c7Env v) (c7Res shares)).writes = [.shares shares] := by
  rcases Nat.lt_trichotomy shares v with hlt | heq | hgt
  · have h1 : ¬shares > v := by omega
    have hset : CpuGroup.Set (c7Env v) (c7Res shares)
        = { outcome := .err (.minShares v), writes := [.shares shares] } := by
      simp [CpuGroup.Set, sharesStep, c7Env, c7Res, res0, h, h1, hlt]
    rw [hset]
    refine ⟨⟨?_, ?_⟩, fun hx => absurd hx h1, fun _ => rfl, rfl⟩
    · intro hx
      simp at hx
    · intro hx
      exact absurd hx (by omega)
  · subst heq
    have h1 : ¬shares > shares := by omega
    have h2 : ¬shares < shares := by omega
    have hset : CpuGroup.Set (c7Env shares) (c7Res shares)
        = { outcome := .ok, writes := [.shares shares] } := by
      simp [CpuGroup.Set, sharesStep, cfsStep, CpuGroup.SetRtSched, rtPeriodStep,
        c7Env, c7Res, res0, rtEnv0, h, h1, h2]
    rw [hset]
    exact ⟨⟨fun _ => rfl, fun _ => rfl⟩, fun hx => absurd hx h1, fun hx => absurd hx h2, rfl⟩
  · have h2 : ¬shares < v := by omega
    have hset : CpuGroup.Set (c7Env v) (c7Res shares)
        = { outcome := .err (.maxShares v), writes := [.shares shares] } := by
      simp [CpuGroup.Set, sharesStep, c7Env, c7Res, res0, h, hgt]
    rw [hset]
    refine ⟨⟨?_, ?_⟩, fun _ => rfl, fun hx => absurd hx h2, rfl⟩
    · intro hx
      simp at hx
    · intro hx
      exact absurd hx (by omega)

/-- Witness for C7 at the spec's scenario values: read-back 512 for request
512 succeeds, read-back 256 names 256 as the maximum, read-back 1024 names
1024 as the minimum. -/
theorem c7_shares_roundtrip_witness :
    (CpuGroup.Set (c7Env 512) (c7Res 512)).outcome = .ok
    ∧ (CpuGroup.Set (c7Env 256) (c7Res 512)).outcome = .err (.maxShares 256)
    ∧ (CpuGroup.Set (c7Env 1024) (c7Res 512)).outcome = .err (.minShares 1024) :=
  ⟨(c7_shares_roundtrip 512 512 (by decide)).1.mpr rfl,
    (c7_shares_roundtrip 512 256 (by decide)).2.1 (by decide),
    (c7_shares_roundtrip 512 1024 (by decide)).2.2.1 (by decide)⟩

/-! ## Claim C8: deferred CFS period write -/

/-- Claim C8: with nonzero period and quota, an EINVAL on the initial period
write is deferred — quota is written, then the period is retried, and the
call succeeds when the retry succeeds (and returns the retry error when it
fails); a non-EINVAL period error, or an EINVAL with no quota requested, is
returned immediately. -/
theorem c8_period_quota_deferral (p : Nat) (q : Int) (hp : p ≠ 0) (hq : q ≠ 0) :
    CpuGroup.Set (c8Env (some .einval) none none) (c8Res p q)
      = { outcome := .ok, writes := [.cfsPeriod p, .cfsQuota q, .cfsPeriod p] }
    ∧ (∀ k, CpuGroup.Set (c8Env (some .einval) none (some (.other k))) (c8Res p q)
      = { outcome := .err (.other k)
          writes := [.cfsPeriod p, .cfsQuota q, .cfsPeriod p] })
    ∧ (∀ k, CpuGroup.Set (c8Env (some (.other k)) none none) (c8Res p q)
      = { outcome := .err (.other k), writes := [.cfsPeriod p] })
    ∧ CpuGroup.Set (c8Env (some .einval) none none) (c8Res p 0)
      = { outcome := .err .einval, writes := [.cfsPeriod p] } := by
  refine ⟨?_, fun k => ?_, fun k => ?_, ?_⟩
  · simp [CpuGroup.Set, sharesStep, cfsStep, CpuGroup.SetRtSched, rtPeriodStep,
      c8Env, c8Res, res0, rtEnv0, hp, hq]
  · simp [CpuGroup.Set, sharesStep, cfsStep, CpuGroup.SetRtSched, rtPeriodStep,
      c8Env, c8Res, res0, rtEnv0, hp, hq]
  · simp [CpuGroup.Set, sharesStep, cfsStep, c8Env, c8Res, res0, hp, hq]
  · simp [CpuGroup.Set, sharesStep, cfsStep, c8Env, c8Res, res0, hp]

/-- Witness for C8 at the spec's scenario values
(CpuPeriod=100000, CpuQuota=50000). -/
theorem c8_period_quota_deferral_witness :
    CpuGroup.Set (c8Env (some .einval) none none) (c8Res 100000 50000)
      = { outcome := .ok
          writes := [.cfsPeriod 100000, .cfsQuota 50000, .cfsPeriod 100000] } :=
  (c8_period_quota_deferral 100000 50000 (by decide) (by decide)).1

/-! ## Claim C9: ledger updates can panic from the public interface -/

/-- Claim C9: there are inputs at the public `Set` interface with a nonzero
real-time runtime on which the ancestor-ledger update panics instead of
returning an error: a core index at or beyond the parsed entry count (here: a
failed ledger read leaves the entry list empty) hits the index-out-of-range
panic, and a retained non-integer ledger token hits the parser's explicit
panic. -/
theorem c9_ledger_update_panics :
    CpuGroup.Set c9EnvA c9ResA = { outcome := .panicked .indexOutOfRange, writes := [] }
    ∧ CpuGroup.Set c9EnvB c9ResB
      = { outcome := .panicked (.parseRuntime "abc"), writes := [] } := by
  decide

/-! ## Claim C4: ledger contribution for disjoint cpusets -/

theorem getD_set_self (l : List Int) (k : Nat) (v : Int) (h : k < l.length) :
    (l.set k v).getD k 0 = v := by
  induction l generalizing k with
  | nil => simp at h
  | cons a t ih =>
    cases k with
    | zero => rfl
    | succ k => simpa using ih k (Nat.lt_of_succ_lt_succ h)

theorem getD_set_ne (l : List Int) (k j : Nat) (v : Int) (h : j ≠ k) :
    (l.set k v).getD j 0 = l.getD j 0 := by
  induction l generalizing k j with
  | nil => rfl
  | cons a t ih =>
    cases k with
    | zero =>
      cases j with
      | zero => exact absurd rfl h
      | succ j => rfl
    | succ k =>
      cases j with
      | zero => rfl
      | succ j => simpa using ih k j fun hh => h (by rw [hh])

theorem list_ext_getD : ∀ (l1 l2 : List Int), l1.length = l2.length →
    (∀ j, j < l1.length → l1.getD j 0 = l2.getD j 0) → l1 = l2
  | [], [], _, _ => rfl
  | [], _ :: _, h, _ => by simp at h
  | _ :: _, [], h, _ => by simp at h
  | a :: t1, b :: t2, h, hj => by
    have h0 : a = b := hj 0 (Nat.succ_pos _)
    have ht : t1 = t2 :=
      list_ext_getD t1 t2 (Nat.succ_injective (by simpa using h))
        fun j hjj => hj (j + 1) (Nat.succ_lt_succ hjj)
    rw [h0, ht]

/-- Characterization of the per-core addition loop: when every cpuset index
is in bounds it succeeds, preserves the entry count, and adds the runtime to
entry `j` once per occurrence of `j` in the cpuset. -/
theorem addRuntimes_ok (cpus : List Int) :
    ∀ (rs : List Int) (rt : Int),
      (∀ i ∈ cpus, 0 ≤ i ∧ i < (rs.length : Int)) →
      ∃ rs1, addRuntimes rs cpus rt = .ok rs1 ∧ rs1.length = rs.length ∧
        ∀ j : Nat, j < rs.length →
          rs1.getD j 0 = rs.getD j 0 + (cpus.count ((j : Nat) : Int) : Int) * rt := by
  induction cpus with
  | nil =>
    intro rs rt _
    exact ⟨rs, rfl, rfl, fun j _ => by simp⟩
  | cons i is ih =>
    intro rs rt h
    have hi := h i (List.mem_cons_self i is)
    have h0i : (0 : Int) ≤ i := hi.1
    have hilen : i < (rs.length : Int) := hi.2
    have hitn : i.toNat < rs.length := by omega
    have hlen : (rs.set i.toNat (rs.getD i.toNat 0 + rt)).length = rs.length := by simp
    have hb : ∀ x ∈ is,
        0 ≤ x ∧ x < ((rs.set i.toNat (rs.getD i.toNat 0 + rt)).length : Int) := by
      intro x hx
      rw [hlen]
      exact h x (List.mem_cons_of_mem i hx)
    obtain ⟨rs1, heq, hlen1, hg⟩ := ih (rs.set i.toNat (rs.getD i.toNat 0 + rt)) rt hb
    refine ⟨rs1, ?_, ?_, ?_⟩
    · simp only [addRuntimes, if_pos hi]
      exact heq
    · rw [hlen1, hlen]
    · intro j hj
      have hj2 : j < (rs.set i.toNat (rs.getD i.toNat 0 + rt)).length := by
        rw [hlen]
        exact hj
      rw [hg j hj2]
      by_cases hji : ((j : Nat) : Int) = i
      · have hjt : j = i.toNat := by omega
        have hcast : ((i.toNat : Nat) : Int) = i := by omega
        have hbeq : (i == i) = true := by simp
        rw [hjt, getD_set_self rs i.toNat _ hitn, List.count_cons, hcast, if_pos hbeq]
        push_cast
        ring
      · have hjt : j ≠ i.toNat := by omega
        have hne : ¬(i == ((j : Nat) : Int)) = true := by
          simp only [beq_iff_eq]
          omega
        rw [getD_set_ne rs i.toNat j _ hjt, List.count_cons, if_neg hne]
        push_cast
        ring

/-- Claim C4, as stated, is false on the code: two containers with disjoint
cpusets (core 0 with runtime 10, core 1 with runtime 20) applied to the same
ancestor ledger file in the two orders leave different final file contents,
because the written index-value pair format is re-parsed as a flat value list
after dropping two trailing tokens. -/
theorem c4_order_dependence_counterexample :
    seqLedgerApply "5 7 0 0" "0" 10 "1" 20 = some "0 0 1 35 2 1 "
    ∧ seqLedgerApply "5 7 0 0" "1" 20 "0" 10 = some "0 10 1 5 2 1 "
    ∧ ("0 0 1 35 2 1 " : String) ≠ "0 10 1 5 2 1 " := by
  decide

/-- Claim C4 (amended): at the level of one parsed ledger array, the loop of
`writeToParentMultiRuntime` adds the requested runtime to exactly the cores
the cpuset names, and for two containers with disjoint (duplicate-free,
in-bounds) cpusets the two application orders produce the same final array;
the file-level contents after sequential apply calls are nevertheless
order-dependent (see the counterexample). -/
theorem c4_disjoint_cpuset_commutes (rs : List Int) (a b : List Int) (ra rb : Int)
    (hra : ra ≠ 0) (hrb : rb ≠ 0)
    (ha : ∀ i ∈ a, 0 ≤ i ∧ i < (rs.length : Int))
    (hb : ∀ i ∈ b, 0 ≤ i ∧ i < (rs.length : Int))
    (hnd : a.Nodup) (hdisj : ∀ i, i ∈ a → i ∉ b) :
    (∃ rs1, addRuntimes rs a ra = .ok rs1 ∧ rs1.length = rs.length ∧
      ∀ j : Nat, j < rs.length →
        (((j : Nat) : Int) ∈ a → rs1.getD j 0 = rs.getD j 0 + ra)
        ∧ (((j : Nat) : Int) ∉ a → rs1.getD j 0 = rs.getD j 0))
    ∧ (addRuntimes rs a ra).bind (fun l => addRuntimes l b rb)
      = (addRuntimes rs b rb).bind (fun l => addRuntimes l a ra) := by
  constructor
  · obtain ⟨rs1, heq, hlen, hg⟩ := addRuntimes_ok a rs ra ha
    refine ⟨rs1, heq, hlen, fun j hj => ⟨?_, ?_⟩⟩
    · intro hmem
      rw [hg j hj, List.count_eq_one_of_mem hnd hmem]
      ring
    · intro hmem
      rw [hg j hj, List.count_eq_zero_of_not_mem hmem]
      ring
  · obtain ⟨rsA, hA, hlenA, hgA⟩ := addRuntimes_ok a rs ra ha
    have hbA : ∀ i ∈ b, 0 ≤ i ∧ i < (rsA.length : Int) := by
      intro i hi
      rw [hlenA]
      exact hb i hi
    obtain ⟨rsAB, hAB, hlenAB, hgAB⟩ := addRuntimes_ok b rsA rb hbA
    obtain ⟨rsB, hB, hlenB, hgB⟩ := addRuntimes_ok b rs rb hb
    have haB : ∀ i ∈ a, 0 ≤ i ∧ i < (rsB.length : Int) := by
      intro i hi
      rw [hlenB]
      exact ha i hi
    obtain ⟨rsBA, hBA, hlenBA, hgBA⟩ := addRuntimes_ok a rsB ra haB
    rw [hA, hB]
    simp only [Except.bind]
    rw [hAB, hBA]
    have hfinal : rsAB = rsBA := by
      apply list_ext_getD
      · rw [hlenAB, hlenA, hlenBA, hlenB]
      · intro j hj
        have hj0 : j < rs.length := by
          rw [hlenAB, hlenA] at hj
          exact hj
        have hjA : j < rsA.length := by
          rw [hlenA]
          exact hj0
        have hjB : j < rsB.length := by
          rw [hlenB]
          exact hj0
        rw [hgAB j hjA, hgA j hj0, hgBA j hjB, hgB j hj0]
        ring
    rw [hfinal]

/-- Witness for the amended C4 at ledger [5, 7], cpusets {0} and {1},
runtimes 10 and 20: the two application orders agree. -/
theorem c4_disjoint_cpuset_commutes_witness :
    (addRuntimes [5, 7] [0] 10).bind (fun l => addRuntimes l [1] 20)
      = (addRuntimes [5, 7] [1] 20).bind (fun l => addRuntimes l [0] 10) :=
  (c4_disjoint_cpuset_commutes [5, 7] [0] [1] 10 20 (by decide) (by decide)
    (by decide) (by decide) (by decide) (by decide)).2
